import Mathlib

/-!
Shallow embedding of the provider abstraction and data-normalization layer
of the repository: the Forgejo mapper functions (src/github/mappers/forgejo.ts),
the Forgejo adapter (src/github/providers/forgejo.ts), and the GitHub adapter
(src/github/providers/github.ts), together with theorems settling the claims
about repository-format validation, error propagation, review-comment
association, and the unified entity invariants.

Machine integers of the source are modelled as Nat (ids, statuses, line
numbers are non-negative in every reachable state). JavaScript optional
fields are modelled as Option; JavaScript truthiness of the patterns
actually used by the source (string or-fallback, numeric or-fallback where
0 is falsy) is modelled by the explicit helpers below. Network calls are
modelled by passing each endpoint outcome as an explicit parameter and by
returning, next to the result, the list of requests the adapter issued.
-/

namespace ForgeSpec

/-- Model of JavaScript String.prototype.split with the one-character
separator "/", by structural recursion over the character list. -/
def splitSlashAux (cs : List Char) : List (List Char) :=
  match cs with
  | [] => [[]]
  | c :: rest =>
    match splitSlashAux rest with
    | [] => [[]]
    | g :: gs => if c = '/' then [] :: g :: gs else (c :: g) :: gs

/-- Model of repository.split on the slash character, as used by both
adapters to parse an owner/repo string. -/
def splitSlash (s : String) : List String :=
  (splitSlashAux s.data).map (fun g => String.mk g)

/-- ASCII lower-casing of one character, as performed by toLowerCase on the
state strings the backends return. -/
def toLowerChar (c : Char) : Char :=
  if c.toNat ≥ 65 ∧ c.toNat ≤ 90 then Char.ofNat (c.toNat + 32) else c

/-- Model of String.prototype.toLowerCase for the ASCII state strings. -/
def toLowerStr (s : String) : String :=
  String.mk (s.data.map toLowerChar)

/-- JavaScript expression a || b for an optional string a: a missing value
and the empty string are falsy. -/
def jsOrStr (a : Option String) (b : String) : String :=
  match a with
  | some s => if s.isEmpty then b else s
  | none => b

/-- JavaScript truthiness of an optional number: a missing value and 0 are
falsy. -/
def jsTruthyNat : Option Nat → Bool
  | some n => n != 0
  | none => false

/-- JavaScript expression a || b on optional numbers. -/
def jsOrNat (a b : Option Nat) : Option Nat :=
  if jsTruthyNat a then a else b

/-- JavaScript expression a || 0 on an optional number. -/
def jsOrZero (a : Option Nat) : Nat :=
  if jsTruthyNat a then a.getD 0 else 0

/-! Forgejo raw API response types, from src/github/mappers/forgejo.ts. -/

/-- ForgejoUser interface: id, login, optional full_name, email, avatar_url. -/
structure ForgejoUser where
  id : Nat
  login : String
  full_name : Option String
  email : Option String
  avatar_url : Option String
deriving Repr, DecidableEq, Inhabited

/-- Owner and name of the repository a branch belongs to. -/
structure ForgejoRepoRef where
  name : String
  owner : ForgejoUser
deriving Repr, DecidableEq, Inhabited

/-- Base or head branch information of a Forgejo pull request. -/
structure ForgejoBranchInfo where
  ref : String
  sha : String
  repo : ForgejoRepoRef
deriving Repr, DecidableEq, Inhabited

/-- ForgejoPullRequest interface. -/
structure ForgejoPullRequest where
  id : Nat
  number : Nat
  title : String
  body : String
  user : ForgejoUser
  state : String
  created_at : String
  updated_at : String
  base : ForgejoBranchInfo
  head : ForgejoBranchInfo
  additions : Option Nat
  deletions : Option Nat
  changed_files : Option Nat
deriving Repr, DecidableEq, Inhabited

/-- ForgejoIssue interface. -/
structure ForgejoIssue where
  id : Nat
  number : Nat
  title : String
  body : String
  user : ForgejoUser
  state : String
  created_at : String
  updated_at : String
deriving Repr, DecidableEq, Inhabited

/-- ForgejoComment interface. -/
structure ForgejoComment where
  id : Nat
  user : ForgejoUser
  body : String
  created_at : String
  updated_at : String
deriving Repr, DecidableEq, Inhabited

/-- Message and author carried inside a Forgejo commit record. -/
structure ForgejoCommitInfoAuthor where
  name : String
  email : String
deriving Repr, DecidableEq, Inhabited

/-- Inner commit object of a ForgejoCommit record. -/
structure ForgejoCommitInfo where
  message : String
  author : ForgejoCommitInfoAuthor
deriving Repr, DecidableEq, Inhabited

/-- ForgejoCommit interface. -/
structure ForgejoCommit where
  sha : String
  commit : ForgejoCommitInfo
deriving Repr, DecidableEq, Inhabited

/-- ForgejoFile interface. -/
structure ForgejoFile where
  filename : String
  additions : Nat
  deletions : Nat
  changes : Nat
  status : String
  sha : Option String
deriving Repr, DecidableEq, Inhabited

/-- ForgejoReview interface. -/
structure ForgejoReview where
  id : Nat
  user : ForgejoUser
  body : String
  state : String
  submitted_at : String
deriving Repr, DecidableEq, Inhabited

/-- ForgejoReviewComment interface: line and original_line are optional. -/
structure ForgejoReviewComment where
  id : Nat
  user : ForgejoUser
  body : String
  path : String
  line : Option Nat
  original_line : Option Nat
  created_at : String
deriving Repr, DecidableEq, Inhabited

/-! Unified forge entity schema, from src/github/providers/types.ts. -/

/-- Wrapper for a nodes list, mirroring the GraphQL-style nesting of the
unified schema. -/
structure Nodes (α : Type) where
  nodes : List α
deriving Repr, DecidableEq, Inhabited

/-- Wrapper carrying a total count next to the nodes list. -/
structure CountedNodes (α : Type) where
  totalCount : Nat
  nodes : List α
deriving Repr, DecidableEq, Inhabited

/-- ForgeAuthor: login always present, name optional. -/
structure ForgeAuthor where
  login : String
  name : Option String
deriving Repr, DecidableEq, Inhabited

/-- ForgeComment of the unified schema; both identifiers are strings. -/
structure ForgeComment where
  id : String
  databaseId : String
  body : String
  author : ForgeAuthor
  createdAt : String
deriving Repr, DecidableEq, Inhabited

/-- ForgeReviewComment: a comment plus a path and a nullable line. -/
structure ForgeReviewComment where
  id : String
  databaseId : String
  body : String
  author : ForgeAuthor
  createdAt : String
  path : String
  line : Option Nat
deriving Repr, DecidableEq, Inhabited

/-- Name and email of a commit author in the unified schema. -/
structure ForgeCommitAuthor where
  name : String
  email : String
deriving Repr, DecidableEq, Inhabited

/-- ForgeCommit of the unified schema. -/
structure ForgeCommit where
  oid : String
  message : String
  author : ForgeCommitAuthor
deriving Repr, DecidableEq, Inhabited

/-- One element of the commits.nodes list of a pull request. -/
structure ForgeCommitNode where
  commit : ForgeCommit
deriving Repr, DecidableEq, Inhabited

/-- ForgeFile of the unified schema. -/
structure ForgeFile where
  path : String
  additions : Nat
  deletions : Nat
  changeType : String
deriving Repr, DecidableEq, Inhabited

/-- ForgeFileWithSHA: a file plus the content hash recorded at fetch time. -/
structure ForgeFileWithSHA where
  path : String
  additions : Nat
  deletions : Nat
  changeType : String
  sha : String
deriving Repr, DecidableEq, Inhabited

/-- ForgeReview of the unified schema. -/
structure ForgeReview where
  id : String
  databaseId : String
  author : ForgeAuthor
  body : String
  state : String
  submittedAt : String
  comments : Nodes ForgeReviewComment
deriving Repr, DecidableEq, Inhabited

/-- ForgePullRequest of the unified schema. -/
structure ForgePullRequest where
  title : String
  body : String
  author : ForgeAuthor
  baseRefName : String
  headRefName : String
  headRefOid : String
  createdAt : String
  additions : Nat
  deletions : Nat
  state : String
  commits : CountedNodes ForgeCommitNode
  files : Nodes ForgeFile
  comments : Nodes ForgeComment
  reviews : Nodes ForgeReview
deriving Repr, DecidableEq, Inhabited

/-- ForgeIssue of the unified schema. -/
structure ForgeIssue where
  title : String
  body : String
  author : ForgeAuthor
  createdAt : String
  state : String
  comments : Nodes ForgeComment
deriving Repr, DecidableEq, Inhabited

/-- Context data of a fetch: either a pull request or an issue. -/
inductive ForgeContextData where
  | pullRequest (pr : ForgePullRequest)
  | issue (i : ForgeIssue)
deriving Repr, DecidableEq, Inhabited

/-- FetchDataResult, the root return value of fetchData. The image URL map
is modelled as an association list; it is produced by an external
collaborator on the GitHub side and is always empty on the Forgejo side. -/
structure FetchDataResult where
  contextData : ForgeContextData
  comments : List ForgeComment
  changedFiles : List ForgeFile
  changedFilesWithSHA : List ForgeFileWithSHA
  reviewData : Option (Nodes ForgeReview)
  imageUrlMap : List (String × String)
  triggerDisplayName : Option String
deriving Repr, DecidableEq, Inhabited

/-! Forgejo mappers, from src/github/mappers/forgejo.ts. -/

/-- mapForgejoUser: login is copied, name is full_name || login. -/
def mapForgejoUser (user : ForgejoUser) : ForgeAuthor :=
  { login := user.login
    name := some (jsOrStr user.full_name user.login) }

/-- mapForgejoComment: the numeric id is stringified into both id fields. -/
def mapForgejoComment (comment : ForgejoComment) : ForgeComment :=
  { id := toString comment.id
    databaseId := toString comment.id
    body := comment.body
    author := mapForgejoUser comment.user
    createdAt := comment.created_at }

/-- mapForgejoReviewComment: line is comment.line || comment.original_line
|| null, with JavaScript numeric truthiness. -/
def mapForgejoReviewComment (comment : ForgejoReviewComment) : ForgeReviewComment :=
  { id := toString comment.id
    databaseId := toString comment.id
    body := comment.body
    author := mapForgejoUser comment.user
    createdAt := comment.created_at
    path := comment.path
    line := jsOrNat comment.line (jsOrNat comment.original_line none) }

/-- mapForgejoCommit. -/
def mapForgejoCommit (commit : ForgejoCommit) : ForgeCommit :=
  { oid := commit.sha
    message := commit.commit.message
    author :=
      { name := commit.commit.author.name
        email := commit.commit.author.email } }

/-- mapForgejoFile. -/
def mapForgejoFile (file : ForgejoFile) : ForgeFile :=
  { path := file.filename
    additions := file.additions
    deletions := file.deletions
    changeType := file.status }

/-- mapForgejoReview: a raw review plus the raw review comments attributed
to it; the state string is lower-cased. -/
def mapForgejoReview (review : ForgejoReview)
    (reviewComments : List ForgejoReviewComment) : ForgeReview :=
  { id := toString review.id
    databaseId := toString review.id
    author := mapForgejoUser review.user
    body := review.body
    state := toLowerStr review.state
    submittedAt := review.submitted_at
    comments := { nodes := reviewComments.map mapForgejoReviewComment } }

/-- Insertion into the review-comments map: append the comment to the
bucket of the given key, creating the bucket if it is absent. This models
the has/set/get-push sequence performed on the JavaScript Map. -/
def mapInsert (m : List (Nat × List ForgejoReviewComment)) (k : Nat)
    (c : ForgejoReviewComment) : List (Nat × List ForgejoReviewComment) :=
  match m with
  | [] => [(k, [c])]
  | (k2, cs) :: rest =>
    if k2 = k then (k2, cs ++ [c]) :: rest else (k2, cs) :: mapInsert rest k c

/-- Lookup in the review-comments map; a missing key yields the empty list,
modelling reviewCommentsMap.get(id) || []. -/
def mapLookup (m : List (Nat × List ForgejoReviewComment)) (k : Nat) :
    List ForgejoReviewComment :=
  match m with
  | [] => []
  | (k2, cs) :: rest => if k2 = k then cs else mapLookup rest k

/-- The grouping step of mapForgejoPullRequest: every fetched review
comment is inserted under the id of the first review when the review list
is non-empty, and under the key 0 otherwise, because the backend does not
tag review comments with their owning review. -/
def buildReviewCommentsMap (reviews : List ForgejoReview)
    (reviewComments : List ForgejoReviewComment) :
    List (Nat × List ForgejoReviewComment) :=
  reviewComments.foldl
    (fun m comment =>
      let reviewId :=
        match reviews with
        | [] => 0
        | r :: _ => r.id
      mapInsert m reviewId comment)
    []

/-- mapForgejoPullRequest: reassemble the flat Forgejo collections into the
unified pull-request tree. -/
def mapForgejoPullRequest (pr : ForgejoPullRequest)
    (commits : List ForgejoCommit) (files : List ForgejoFile)
    (comments : List ForgejoComment) (reviews : List ForgejoReview)
    (reviewComments : List ForgejoReviewComment) : ForgePullRequest :=
  let reviewCommentsMap := buildReviewCommentsMap reviews reviewComments
  { title := pr.title
    body := pr.body
    author := mapForgejoUser pr.user
    baseRefName := pr.base.ref
    headRefName := pr.head.ref
    headRefOid := pr.head.sha
    createdAt := pr.created_at
    additions := jsOrZero pr.additions
    deletions := jsOrZero pr.deletions
    state := toLowerStr pr.state
    commits :=
      { totalCount := commits.length
        nodes := commits.map (fun commit => { commit := mapForgejoCommit commit }) }
    files := { nodes := files.map mapForgejoFile }
    comments := { nodes := comments.map mapForgejoComment }
    reviews :=
      { nodes := reviews.map (fun review =>
          mapForgejoReview review (mapLookup reviewCommentsMap review.id)) } }

/-- mapForgejoIssue. -/
def mapForgejoIssue (issue : ForgejoIssue)
    (comments : List ForgejoComment) : ForgeIssue :=
  { title := issue.title
    body := issue.body
    author := mapForgejoUser issue.user
    createdAt := issue.created_at
    state := toLowerStr issue.state
    comments := { nodes := comments.map mapForgejoComment } }

/-! Forgejo adapter, from src/github/providers/forgejo.ts. Each call made
through the Forgejo API client resolves to an object with an ok flag, a
status and parsed data for any HTTP response, and rejects only on a
transport failure; the three outcomes of one endpoint are modelled as
EndpointResult. -/

/-- Outcome of one HTTP call through the Forgejo API client: a 2xx
response carrying parsed data, a non-2xx response carrying its status
code, or a rejected promise (transport failure). -/
inductive EndpointResult (α : Type) where
  | ok (data : α)
  | notOk (status : Nat)
  | thrown
deriving Repr, DecidableEq, Inhabited

/-- True exactly when the call rejected instead of resolving. -/
def EndpointResult.isThrown {α : Type} : EndpointResult α → Bool
  | .thrown => true
  | .ok _ => false
  | .notOk _ => false

/-- Value of response.ok ? response.data : d, the degradation pattern the
adapter applies to its secondary collections. -/
def EndpointResult.getOrDefault {α : Type} : EndpointResult α → α → α
  | .ok a, _ => a
  | .notOk _, d => d
  | .thrown, d => d

/-- Outcome of a comment write through the client: success, a non-2xx
response with its status and optional backend message, or a rejection. -/
inductive WriteResp where
  | ok
  | notOk (status : Nat) (message : Option String)
  | thrown (msg : String)
deriving Repr, DecidableEq, Inhabited

/-- ForgejoProvider.fetchPullRequestData. The four primary endpoint
outcomes are joined as by Promise.all (any rejection rejects the join); a
non-2xx pull-request response throws, while non-2xx commit, file and
comment responses degrade to empty lists; the review and review-comment
calls run afterwards inside one try block whose catch swallows rejections.
The second component lists the request paths the adapter issued. -/
def forgejoFetchPullRequestData (owner repo prNumber : String)
    (prR : EndpointResult ForgejoPullRequest)
    (commitsR : EndpointResult (List ForgejoCommit))
    (filesR : EndpointResult (List ForgejoFile))
    (commentsR : EndpointResult (List ForgejoComment))
    (reviewsR : EndpointResult (List ForgejoReview))
    (reviewCommentsR : EndpointResult (List ForgejoReviewComment))
    (triggerDisplayName : Option String) :
    Except String FetchDataResult × List String :=
  let base := "/repos/" ++ owner ++ "/" ++ repo
  let primaryRequests :=
    [base ++ "/pulls/" ++ prNumber,
     base ++ "/pulls/" ++ prNumber ++ "/commits",
     base ++ "/pulls/" ++ prNumber ++ "/files",
     base ++ "/issues/" ++ prNumber ++ "/comments"]
  if prR.isThrown || commitsR.isThrown || filesR.isThrown || commentsR.isThrown then
    (Except.error "Forgejo API GET request failed", primaryRequests)
  else
    match prR with
    | .thrown => (Except.error "Forgejo API GET request failed", primaryRequests)
    | .notOk status =>
      (Except.error ("Failed to fetch pull request: " ++ toString status),
       primaryRequests)
    | .ok prData =>
      let commits := commitsR.getOrDefault []
      let files := filesR.getOrDefault []
      let comments := commentsR.getOrDefault []
      let reviewRequests :=
        [base ++ "/pulls/" ++ prNumber ++ "/reviews"] ++
          (if reviewsR.isThrown then []
           else [base ++ "/pulls/" ++ prNumber ++ "/comments"])
      let pair :=
        match reviewsR with
        | .thrown => (([] : List ForgejoReview), ([] : List ForgejoReviewComment))
        | _ =>
          let reviews := reviewsR.getOrDefault []
          match reviewCommentsR with
          | .thrown => (reviews, [])
          | _ => (reviews, reviewCommentsR.getOrDefault [])
      let contextData :=
        mapForgejoPullRequest prData commits files comments pair.1 pair.2
      (Except.ok
        { contextData := ForgeContextData.pullRequest contextData
          comments := contextData.comments.nodes
          changedFiles := contextData.files.nodes
          changedFilesWithSHA := contextData.files.nodes.map (fun file =>
            { path := file.path
              additions := file.additions
              deletions := file.deletions
              changeType := file.changeType
              sha := prData.head.sha })
          reviewData :=
            if contextData.reviews.nodes.length > 0 then some contextData.reviews
            else none
          imageUrlMap := []
          triggerDisplayName := triggerDisplayName },
       primaryRequests ++ reviewRequests)

/-- ForgejoProvider.fetchIssueData: the issue metadata and comment calls
are joined; a non-2xx issue response throws, a non-2xx comments response
degrades to an empty list. -/
def forgejoFetchIssueData (owner repo issueNumber : String)
    (issueR : EndpointResult ForgejoIssue)
    (commentsR : EndpointResult (List ForgejoComment))
    (triggerDisplayName : Option String) :
    Except String FetchDataResult × List String :=
  let base := "/repos/" ++ owner ++ "/" ++ repo
  let requests :=
    [base ++ "/issues/" ++ issueNumber,
     base ++ "/issues/" ++ issueNumber ++ "/comments"]
  if issueR.isThrown || commentsR.isThrown then
    (Except.error "Forgejo API GET request failed", requests)
  else
    match issueR with
    | .thrown => (Except.error "Forgejo API GET request failed", requests)
    | .notOk status =>
      (Except.error ("Failed to fetch issue: " ++ toString status), requests)
    | .ok issueData =>
      let contextData := mapForgejoIssue issueData (commentsR.getOrDefault [])
      (Except.ok
        { contextData := ForgeContextData.issue contextData
          comments := contextData.comments.nodes
          changedFiles := []
          changedFilesWithSHA := []
          reviewData := none
          imageUrlMap := []
          triggerDisplayName := triggerDisplayName },
       requests)

/-- ForgejoProvider.fetchData: split the repository string on the slash
and throw when the split does not have exactly two parts, before any
request is issued; then dispatch on isPR. The outer catch logs and
rethrows the error unchanged. -/
def forgejoFetchData (repository prNumber : String) (isPR : Bool)
    (prR : EndpointResult ForgejoPullRequest)
    (commitsR : EndpointResult (List ForgejoCommit))
    (filesR : EndpointResult (List ForgejoFile))
    (commentsR : EndpointResult (List ForgejoComment))
    (reviewsR : EndpointResult (List ForgejoReview))
    (reviewCommentsR : EndpointResult (List ForgejoReviewComment))
    (issueR : EndpointResult ForgejoIssue)
    (issueCommentsR : EndpointResult (List ForgejoComment))
    (triggerDisplayName : Option String) :
    Except String FetchDataResult × List String :=
  let parts := splitSlash repository
  if parts.length ≠ 2 then
    (Except.error ("Invalid repository format: " ++ repository), [])
  else
    let owner := parts.getD 0 ""
    let repo := parts.getD 1 ""
    if isPR then
      forgejoFetchPullRequestData owner repo prNumber prR commitsR filesR
        commentsR reviewsR reviewCommentsR triggerDisplayName
    else
      forgejoFetchIssueData owner repo prNumber issueR issueCommentsR
        triggerDisplayName

/-- ForgejoProvider.createComment: validate the repository format before
posting; a non-2xx response throws an error carrying the status and the
backend message or a fixed fallback; the catch rethrows unchanged. -/
def forgejoCreateComment (repository num body : String) (resp : WriteResp) :
    Except String Unit × List String :=
  let parts := splitSlash repository
  if parts.length ≠ 2 then
    (Except.error ("Invalid repository format: " ++ repository), [])
  else
    let owner := parts.getD 0 ""
    let repo := parts.getD 1 ""
    let url := "/repos/" ++ owner ++ "/" ++ repo ++ "/issues/" ++ num ++ "/comments"
    match resp with
    | .ok => (Except.ok (), [url])
    | .notOk status message =>
      (Except.error ("Failed to create comment on " ++ repository ++ "#" ++ num
        ++ ": " ++ toString status ++ " " ++ jsOrStr message "Unknown error"),
       [url])
    | .thrown msg => (Except.error msg, [url])

/-- ForgejoProvider.updateComment: same validation, patching the comment by
its id. -/
def forgejoUpdateComment (repository commentId body : String) (resp : WriteResp) :
    Except String Unit × List String :=
  let parts := splitSlash repository
  if parts.length ≠ 2 then
    (Except.error ("Invalid repository format: " ++ repository), [])
  else
    let owner := parts.getD 0 ""
    let repo := parts.getD 1 ""
    let url := "/repos/" ++ owner ++ "/" ++ repo ++ "/issues/comments/" ++ commentId
    match resp with
    | .ok => (Except.ok (), [url])
    | .notOk status message =>
      (Except.error ("Failed to update comment " ++ commentId ++ " on "
        ++ repository ++ ": " ++ toString status ++ " "
        ++ jsOrStr message "Unknown error"),
       [url])
    | .thrown msg => (Except.error msg, [url])

/-! GitHub raw GraphQL response types, as consumed by
src/github/providers/github.ts. -/

/-- GraphQL author: login plus an optional display name. -/
structure GitHubAuthor where
  login : String
  name : Option String
deriving Repr, DecidableEq, Inhabited

/-- GraphQL issue or pull-request comment. -/
structure GitHubComment where
  id : String
  databaseId : String
  body : String
  author : GitHubAuthor
  createdAt : String
deriving Repr, DecidableEq, Inhabited

/-- GraphQL review comment: nullable line number. -/
structure GitHubReviewComment where
  id : String
  databaseId : String
  body : String
  author : GitHubAuthor
  createdAt : String
  path : String
  line : Option Nat
deriving Repr, DecidableEq, Inhabited

/-- GraphQL changed file. -/
structure GitHubFile where
  path : String
  additions : Nat
  deletions : Nat
  changeType : String
deriving Repr, DecidableEq, Inhabited

/-- GraphQL commit. -/
structure GitHubCommit where
  oid : String
  message : String
  author : ForgeCommitAuthor
deriving Repr, DecidableEq, Inhabited

/-- One element of the commits.nodes list of the GraphQL response. -/
structure GitHubCommitNode where
  commit : GitHubCommit
deriving Repr, DecidableEq, Inhabited

/-- GraphQL review with its nested comment list. -/
structure GitHubReview where
  id : String
  databaseId : String
  author : GitHubAuthor
  body : String
  state : String
  submittedAt : String
  comments : Nodes GitHubReviewComment
deriving Repr, DecidableEq, Inhabited

/-- GraphQL pull request: the full nested tree returned by one query. -/
structure GitHubPullRequest where
  title : String
  body : String
  author : GitHubAuthor
  baseRefName : String
  headRefName : String
  headRefOid : String
  createdAt : String
  additions : Nat
  deletions : Nat
  state : String
  commits : CountedNodes GitHubCommitNode
  files : Nodes GitHubFile
  comments : Nodes GitHubComment
  reviews : Nodes GitHubReview
deriving Repr, DecidableEq, Inhabited

/-- GraphQL issue. -/
structure GitHubIssue where
  title : String
  body : String
  author : GitHubAuthor
  createdAt : String
  state : String
  comments : Nodes GitHubComment
deriving Repr, DecidableEq, Inhabited

/-- The contextData value inside the GitHub adapter before conversion. -/
inductive GitHubContextData where
  | pullRequest (pr : GitHubPullRequest)
  | issue (i : GitHubIssue)
deriving Repr, DecidableEq, Inhabited

/-- Outcome of one GraphQL query: resolved with its payload (the payload is
none when the numbered item does not exist in the repository), or rejected
by the transport or the backend. -/
inductive QueryResult (α : Type) where
  | ok (data : α)
  | failed
deriving Repr, DecidableEq, Inhabited

/-- GitHubProvider.convertToForgeAuthor: both fields are copied through
unchanged. -/
def convertToForgeAuthor (author : GitHubAuthor) : ForgeAuthor :=
  { login := author.login
    name := author.name }

/-- GitHubProvider.convertToForgeComments. -/
def convertToForgeComments (comments : List GitHubComment) : List ForgeComment :=
  comments.map (fun comment =>
    { id := comment.id
      databaseId := comment.databaseId
      body := comment.body
      author := convertToForgeAuthor comment.author
      createdAt := comment.createdAt })

/-- GitHubProvider.convertToForgeFiles. -/
def convertToForgeFiles (files : List GitHubFile) : List ForgeFile :=
  files.map (fun file =>
    { path := file.path
      additions := file.additions
      deletions := file.deletions
      changeType := file.changeType })

/-- GitHubProvider.convertToForgeCommit. -/
def convertToForgeCommit (commit : GitHubCommit) : ForgeCommit :=
  { oid := commit.oid
    message := commit.message
    author :=
      { name := commit.author.name
        email := commit.author.email } }

/-- GitHubProvider.convertToForgeReviews: near-identity, flattening each
nested review comment into the unified shape with line copied through. -/
def convertToForgeReviews (reviews : List GitHubReview) : List ForgeReview :=
  reviews.map (fun review =>
    { id := review.id
      databaseId := review.databaseId
      author := convertToForgeAuthor review.author
      body := review.body
      state := review.state
      submittedAt := review.submittedAt
      comments :=
        { nodes := review.comments.nodes.map (fun comment =>
            { id := comment.id
              databaseId := comment.databaseId
              body := comment.body
              author := convertToForgeAuthor comment.author
              createdAt := comment.createdAt
              path := comment.path
              line := comment.line }) } })

/-- GitHubProvider.convertToForgeData: dispatch on whether the record is a
pull request, converting the nested collections; the commit totalCount of
the GraphQL response is passed through. -/
def convertToForgeData (data : GitHubContextData) : ForgeContextData :=
  match data with
  | .pullRequest pr =>
    ForgeContextData.pullRequest
      { title := pr.title
        body := pr.body
        author := convertToForgeAuthor pr.author
        baseRefName := pr.baseRefName
        headRefName := pr.headRefName
        headRefOid := pr.headRefOid
        createdAt := pr.createdAt
        additions := pr.additions
        deletions := pr.deletions
        state := pr.state
        commits :=
          { totalCount := pr.commits.totalCount
            nodes := pr.commits.nodes.map (fun node =>
              { commit := convertToForgeCommit node.commit }) }
        files := { nodes := convertToForgeFiles pr.files.nodes }
        comments := { nodes := convertToForgeComments pr.comments.nodes }
        reviews := { nodes := convertToForgeReviews pr.reviews.nodes } }
  | .issue i =>
    ForgeContextData.issue
      { title := i.title
        body := i.body
        author := convertToForgeAuthor i.author
        createdAt := i.createdAt
        state := i.state
        comments := { nodes := convertToForgeComments i.comments.nodes } }

/-- GitHubProvider.fetchData. Repository validation happens before the
query is issued; inside the try block a missing pull request or issue
throws a not-found error, and the catch replaces any error thrown inside
the try with the fixed message Failed to fetch PR data or Failed to fetch
issue data. The hashFile oracle models the external git hash-object call
(none models a hashing failure), and the imageUrlMap parameter models the
external image-download collaborator. -/
def githubFetchData (repository prNumber : String) (isPR : Bool)
    (prQ : QueryResult (Option GitHubPullRequest))
    (issueQ : QueryResult (Option GitHubIssue))
    (hashFile : String → Option String)
    (imageUrlMap : List (String × String))
    (triggerDisplayName : Option String) :
    Except String FetchDataResult × List String :=
  let parts := splitSlash repository
  let owner := parts.getD 0 ""
  let repo := parts.getD 1 ""
  if owner.isEmpty || repo.isEmpty then
    (Except.error "Invalid repository format. Expected owner/repo.", [])
  else if isPR then
    let requests := ["graphql PR_QUERY " ++ owner ++ "/" ++ repo ++ "#" ++ prNumber]
    match prQ with
    | .failed => (Except.error "Failed to fetch PR data", requests)
    | .ok none => (Except.error "Failed to fetch PR data", requests)
    | .ok (some pullRequest) =>
      let changedFiles := pullRequest.files.nodes
      let changedFilesWithSHA :=
        if changedFiles.length > 0 then
          changedFiles.map (fun file =>
            if file.changeType = "DELETED" then
              { path := file.path
                additions := file.additions
                deletions := file.deletions
                changeType := file.changeType
                sha := "deleted" }
            else
              match hashFile file.path with
              | some sha =>
                { path := file.path
                  additions := file.additions
                  deletions := file.deletions
                  changeType := file.changeType
                  sha := sha }
              | none =>
                { path := file.path
                  additions := file.additions
                  deletions := file.deletions
                  changeType := file.changeType
                  sha := "unknown" })
        else []
      (Except.ok
        { contextData := convertToForgeData (GitHubContextData.pullRequest pullRequest)
          comments := convertToForgeComments pullRequest.comments.nodes
          changedFiles := convertToForgeFiles changedFiles
          changedFilesWithSHA := changedFilesWithSHA
          reviewData := some { nodes := convertToForgeReviews pullRequest.reviews.nodes }
          imageUrlMap := imageUrlMap
          triggerDisplayName := triggerDisplayName },
       requests)
  else
    let requests := ["graphql ISSUE_QUERY " ++ owner ++ "/" ++ repo ++ "#" ++ prNumber]
    match issueQ with
    | .failed => (Except.error "Failed to fetch issue data", requests)
    | .ok none => (Except.error "Failed to fetch issue data", requests)
    | .ok (some issue) =>
      (Except.ok
        { contextData := convertToForgeData (GitHubContextData.issue issue)
          comments := convertToForgeComments issue.comments.nodes
          changedFiles := []
          changedFilesWithSHA := []
          reviewData := none
          imageUrlMap := imageUrlMap
          triggerDisplayName := triggerDisplayName },
       requests)

/-- GitHubProvider.createComment: reject when the first or second split
segment is empty, before the REST call; otherwise the REST outcome is
returned unchanged. -/
def githubCreateComment (repository num body : String)
    (resp : Except String Unit) : Except String Unit × List String :=
  let parts := splitSlash repository
  let owner := parts.getD 0 ""
  let repo := parts.getD 1 ""
  if owner.isEmpty || repo.isEmpty then
    (Except.error "Invalid repository format. Expected owner/repo.", [])
  else
    (resp, ["rest issues.createComment " ++ owner ++ "/" ++ repo ++ "#" ++ num])

/-- GitHubProvider.updateComment: same validation, updating by comment id. -/
def githubUpdateComment (repository commentId body : String)
    (resp : Except String Unit) : Except String Unit × List String :=
  let parts := splitSlash repository
  let owner := parts.getD 0 ""
  let repo := parts.getD 1 ""
  if owner.isEmpty || repo.isEmpty then
    (Except.error "Invalid repository format. Expected owner/repo.", [])
  else
    (resp, ["rest issues.updateComment " ++ owner ++ "/" ++ repo ++ "#" ++ commentId])

/-- True exactly when the computation succeeded. -/
def isOkE {ε α : Type} : Except ε α → Bool
  | .ok _ => true
  | .error _ => false

/-- Key under which the grouping step files every review comment: the id of
the first review when the list is non-empty, 0 otherwise. -/
def firstReviewId (reviews : List ForgejoReview) : Nat :=
  match reviews with
  | [] => 0
  | r :: _ => r.id

/-! Concrete sample payloads used to instantiate the theorems. -/

/-- A Forgejo user without a display name. -/
def sampleUser : ForgejoUser :=
  { id := 1, login := "alice", full_name := none, email := none, avatar_url := none }

/-- A sample repository reference. -/
def sampleRepoRef : ForgejoRepoRef := { name := "repo", owner := sampleUser }

/-- A minimal Forgejo pull-request payload: additions and deletions absent. -/
def samplePR : ForgejoPullRequest :=
  { id := 1, number := 1, title := "t", body := "b", user := sampleUser
    state := "open", created_at := "2023-01-01", updated_at := "2023-01-01"
    base := { ref := "main", sha := "base0", repo := sampleRepoRef }
    head := { ref := "feat", sha := "head0", repo := sampleRepoRef }
    additions := none, deletions := none, changed_files := none }

/-- A sample review with a chosen id. -/
def sampleReview (i : Nat) : ForgejoReview :=
  { id := i, user := sampleUser, body := "looks good", state := "APPROVED"
    submitted_at := "2023-01-02" }

/-- A sample review comment with a current line. -/
def sampleRC : ForgejoReviewComment :=
  { id := 9, user := sampleUser, body := "note", path := "p.ts"
    line := some 3, original_line := none, created_at := "2023-01-02" }

/-- A review comment whose current line field equals 0 and whose original
line is 15. -/
def sampleRCzero : ForgejoReviewComment := { sampleRC with line := some 0, original_line := some 15 }

/-- A review comment with the current line unset and original line 15. -/
def sampleRCnoLine : ForgejoReviewComment := { sampleRC with line := none, original_line := some 15 }

/-- A GitHub GraphQL author record lacking a display name. -/
def ghAuthorNoName : GitHubAuthor := { login := "bob", name := none }

/-! Helper lemmas on the grouping map and on list indexing. -/

@[simp]
theorem isThrown_ok {α : Type} (a : α) :
    (EndpointResult.ok a).isThrown = false := rfl

@[simp]
theorem isThrown_notOk {α : Type} (s : Nat) :
    ((EndpointResult.notOk s : EndpointResult α)).isThrown = false := rfl

@[simp]
theorem isThrown_thrown {α : Type} :
    ((EndpointResult.thrown : EndpointResult α)).isThrown = true := rfl

@[simp]
theorem getOrDefault_ok {α : Type} (a d : α) :
    (EndpointResult.ok a).getOrDefault d = a := rfl

@[simp]
theorem getOrDefault_notOk {α : Type} (s : Nat) (d : α) :
    ((EndpointResult.notOk s : EndpointResult α)).getOrDefault d = d := rfl

@[simp]
theorem getOrDefault_thrown {α : Type} (d : α) :
    ((EndpointResult.thrown : EndpointResult α)).getOrDefault d = d := rfl

theorem mapLookup_mapInsert (m : List (Nat × List ForgejoReviewComment))
    (k0 k : Nat) (c : ForgejoReviewComment) :
    mapLookup (mapInsert m k0 c) k
      = mapLookup m k ++ (if k = k0 then [c] else []) := by
  induction m with
  | nil =>
    by_cases h : k = k0
    · simp [mapInsert, mapLookup, h]
    · simp [mapInsert, mapLookup, h, Ne.symm h]
  | cons hd tl ih =>
    obtain ⟨k2, cs⟩ := hd
    simp only [mapInsert]
    by_cases h1 : k2 = k0
    · rw [if_pos h1]
      by_cases h2 : k2 = k
      · subst h1; subst h2
        simp [mapLookup]
      · have hk : ¬k = k0 := fun hh => h2 (h1.trans hh.symm)
        simp [mapLookup, h2, hk]
    · rw [if_neg h1]
      by_cases h2 : k2 = k
      · have hk : ¬k = k0 := fun hh => h1 (h2.trans hh)
        simp [mapLookup, h2, hk]
      · simp [mapLookup, h1, h2, ih]

theorem mapLookup_foldInsert (rcs : List ForgejoReviewComment) (k0 : Nat)
    (m : List (Nat × List ForgejoReviewComment)) (k : Nat) :
    mapLookup (rcs.foldl (fun acc c => mapInsert acc k0 c) m) k
      = mapLookup m k ++ (if k = k0 then rcs else []) := by
  induction rcs generalizing m with
  | nil => simp
  | cons c cs ih =>
    simp only [List.foldl_cons]
    rw [ih, mapLookup_mapInsert]
    by_cases h : k = k0 <;> simp [h]

theorem buildReviewCommentsMap_lookup (reviews : List ForgejoReview)
    (rcs : List ForgejoReviewComment) (k : Nat) :
    mapLookup (buildReviewCommentsMap reviews rcs) k
      = if k = firstReviewId reviews then rcs else [] := by
  show mapLookup
    (rcs.foldl (fun acc c => mapInsert acc (firstReviewId reviews) c) []) k = _
  rw [mapLookup_foldInsert]
  simp [mapLookup]

theorem getD_map {α β : Type} (f : α → β) (l : List α) (i : Nat) (d : β)
    (da : α) (h : i < l.length) :
    (l.map f).getD i d = f (l.getD i da) := by
  induction l generalizing i with
  | nil => simp at h
  | cons a tl ih =>
    cases i with
    | zero => simp
    | succ n =>
      simp only [List.map_cons, List.getD_cons_succ]
      exact ih n (by simpa using Nat.lt_of_succ_lt_succ h)

theorem mapForgejoPullRequest_reviews (pr : ForgejoPullRequest)
    (cs : List ForgejoCommit) (fs : List ForgejoFile)
    (cms : List ForgejoComment) (rs : List ForgejoReview)
    (rcs : List ForgejoReviewComment) :
    (mapForgejoPullRequest pr cs fs cms rs rcs).reviews.nodes
      = rs.map (fun review => mapForgejoReview review
          (if review.id = firstReviewId rs then rcs else [])) := by
  show (rs.map fun review => mapForgejoReview review
    (mapLookup (buildReviewCommentsMap rs rcs) review.id)) = _
  simp only [buildReviewCommentsMap_lookup]

theorem mapForgejoPullRequest_nil_reviews (pr : ForgejoPullRequest)
    (cs : List ForgejoCommit) (fs : List ForgejoFile)
    (cms : List ForgejoComment) (rcs : List ForgejoReviewComment) :
    mapForgejoPullRequest pr cs fs cms [] rcs
      = mapForgejoPullRequest pr cs fs cms [] [] := by
  simp [mapForgejoPullRequest]

/-! Claim theorems. -/

/-- C1 (amended): in every Forgejo pull-request mapping, all fetched review
comments are attributed to every review whose id equals the id of the first
review in the list, and a review whose id differs from the first id gets an
empty comment list; when the review list is empty, every fetched review
comment is dropped. When the review ids are pairwise distinct this places
all comments under reviews.nodes[0] exactly. -/
theorem c1_review_association (pr : ForgejoPullRequest)
    (cs : List ForgejoCommit) (fs : List ForgejoFile)
    (cms : List ForgejoComment) (rs : List ForgejoReview)
    (rcs : List ForgejoReviewComment) :
    (rs = [] → (mapForgejoPullRequest pr cs fs cms rs rcs).reviews.nodes = []) ∧
    (∀ i, i < rs.length →
      ((mapForgejoPullRequest pr cs fs cms rs rcs).reviews.nodes.getD i default).comments.nodes
        = if (rs.getD i default).id = (rs.getD 0 default).id
          then rcs.map mapForgejoReviewComment else []) := by
  constructor
  · intro h
    subst h
    simp [mapForgejoPullRequest]
  · intro i hi
    rw [mapForgejoPullRequest_reviews, getD_map _ rs i default default hi]
    have hfirst : firstReviewId rs = (rs.getD 0 default).id := by
      cases rs with
      | nil => simp at hi
      | cons r tl => simp [firstReviewId]
    rw [hfirst]
    simp [mapForgejoReview, apply_ite (List.map mapForgejoReviewComment)]

/-- Witness for C1: with two reviews of distinct ids 5 and 7 and one
fetched review comment, the second review gets an empty comment list. -/
theorem c1_review_association_witness :
    ((mapForgejoPullRequest samplePR [] [] [] [sampleReview 5, sampleReview 7]
      [sampleRC]).reviews.nodes.getD 1 default).comments.nodes = [] := by
  rw [(c1_review_association samplePR [] [] [] [sampleReview 5, sampleReview 7]
    [sampleRC]).2 1 (by decide)]
  decide

/-- Counterexample for C1 as stated: with two reviews that share the id 5,
the second review (a review other than the first) also carries the pooled
review comment, so not every other review has an empty comment list. -/
theorem c1_review_association_counterexample :
    ((mapForgejoPullRequest samplePR [] [] [] [sampleReview 5, sampleReview 5]
      [sampleRC]).reviews.nodes.getD 1 default).comments.nodes ≠ [] := by
  decide

/-- C5 (amended): the Forgejo mapper falls back to the login when the user
record lacks a display name (absent or empty full_name) and always keeps
the login; the GitHub converter copies both fields through unchanged, so a
GitHub author record lacking a display name keeps an absent name instead
of falling back to the login. -/
theorem c5_author_fallback (u : ForgejoUser) (a : GitHubAuthor) :
    ((u.full_name = none ∨ u.full_name = some "") →
      (mapForgejoUser u).name = some u.login) ∧
    (mapForgejoUser u).login = u.login ∧
    (convertToForgeAuthor a).login = a.login ∧
    (convertToForgeAuthor a).name = a.name := by
  refine ⟨?_, rfl, rfl, rfl⟩
  intro h
  have he : "".isEmpty = true := rfl
  rcases h with h | h <;> simp [mapForgejoUser, jsOrStr, h, he]

/-- Witness for C5: a Forgejo user without full_name maps to name = login,
and the GitHub converter keeps the name field of a sample record. -/
theorem c5_author_fallback_witness :
    (mapForgejoUser sampleUser).name = some sampleUser.login ∧
    (convertToForgeAuthor ghAuthorNoName).name = ghAuthorNoName.name :=
  ⟨(c5_author_fallback sampleUser ghAuthorNoName).1 (Or.inl rfl),
   (c5_author_fallback sampleUser ghAuthorNoName).2.2.2⟩

/-- Counterexample for C5 as stated: the GitHub adapter converts an author
record lacking a display name to an Author whose name stays absent, not to
name = login. -/
theorem c5_author_fallback_counterexample :
    ghAuthorNoName.name = none ∧
    (convertToForgeAuthor ghAuthorNoName).name = none ∧
    (convertToForgeAuthor ghAuthorNoName).name
      ≠ some (convertToForgeAuthor ghAuthorNoName).login :=
  ⟨rfl, rfl, by decide⟩

/-- C6 (amended): the mapped ReviewComment line equals the current diff
line when it is present and nonzero; otherwise it equals the original line
when that is present and nonzero; otherwise it is null. A zero value in
either field is treated like an absent one. -/
theorem c6_line_fallback (c : ForgejoReviewComment) :
    (∀ n, c.line = some n → n ≠ 0 →
      (mapForgejoReviewComment c).line = some n) ∧
    ((c.line = none ∨ c.line = some 0) →
      ∀ m, c.original_line = some m → m ≠ 0 →
        (mapForgejoReviewComment c).line = some m) ∧
    ((c.line = none ∨ c.line = some 0) →
      (c.original_line = none ∨ c.original_line = some 0) →
      (mapForgejoReviewComment c).line = none) := by
  refine ⟨?_, ?_, ?_⟩
  · intro n hn h0
    simp [mapForgejoReviewComment, jsOrNat, jsTruthyNat, hn, h0]
  · intro h m hm h0
    rcases h with h | h <;>
      simp [mapForgejoReviewComment, jsOrNat, jsTruthyNat, h, hm, h0]
  · intro h ho
    rcases h with h | h <;> rcases ho with ho | ho <;>
      simp [mapForgejoReviewComment, jsOrNat, jsTruthyNat, h, ho]

/-- Witness for C6: a comment with the current line unset and original
line 15 maps to line = 15. -/
theorem c6_line_fallback_witness :
    (mapForgejoReviewComment sampleRCnoLine).line = some 15 :=
  (c6_line_fallback sampleRCnoLine).2.1 (Or.inl rfl) 15 rfl (by decide)

/-- Counterexample for C6 as stated: a comment whose current diff line
field is present with value 0 does not map to line = 0; the original line
15 is substituted instead. -/
theorem c6_line_fallback_counterexample :
    sampleRCzero.line = some 0 ∧
    (mapForgejoReviewComment sampleRCzero).line = some 15 ∧
    (mapForgejoReviewComment sampleRCzero).line ≠ sampleRCzero.line :=
  ⟨rfl, rfl, by decide⟩

/-- C8: mapping a minimal Forgejo pull-request payload (no commits, files,
comments, reviews or review comments, additions and deletions absent)
yields zero-length collections, a zero commit count and additions =
deletions = 0; every required field is populated by construction. -/
theorem c8_minimal_payload (pr : ForgejoPullRequest)
    (ha : pr.additions = none) (hd : pr.deletions = none) :
    (mapForgejoPullRequest pr [] [] [] [] []).commits.totalCount = 0 ∧
    (mapForgejoPullRequest pr [] [] [] [] []).commits.nodes = [] ∧
    (mapForgejoPullRequest pr [] [] [] [] []).files.nodes = [] ∧
    (mapForgejoPullRequest pr [] [] [] [] []).comments.nodes = [] ∧
    (mapForgejoPullRequest pr [] [] [] [] []).reviews.nodes = [] ∧
    (mapForgejoPullRequest pr [] [] [] [] []).additions = 0 ∧
    (mapForgejoPullRequest pr [] [] [] [] []).deletions = 0 := by
  simp [mapForgejoPullRequest, jsOrZero, jsTruthyNat, ha, hd]

/-- Witness for C8: the sample minimal payload maps to empty collections
and zero counters. -/
theorem c8_minimal_payload_witness :
    (mapForgejoPullRequest samplePR [] [] [] [] []).commits.totalCount = 0 ∧
    (mapForgejoPullRequest samplePR [] [] [] [] []).commits.nodes = [] ∧
    (mapForgejoPullRequest samplePR [] [] [] [] []).files.nodes = [] ∧
    (mapForgejoPullRequest samplePR [] [] [] [] []).comments.nodes = [] ∧
    (mapForgejoPullRequest samplePR [] [] [] [] []).reviews.nodes = [] ∧
    (mapForgejoPullRequest samplePR [] [] [] [] []).additions = 0 ∧
    (mapForgejoPullRequest samplePR [] [] [] [] []).deletions = 0 :=
  c8_minimal_payload samplePR rfl rfl

/-- C9: for every input, the mapped pull request reports a commit total
count equal to the length of the materialized commit node list, because
both are computed from the same fetched list. -/
theorem c9_commits_totalCount (pr : ForgejoPullRequest)
    (cs : List ForgejoCommit) (fs : List ForgejoFile)
    (cms : List ForgejoComment) (rs : List ForgejoReview)
    (rcs : List ForgejoReviewComment) :
    (mapForgejoPullRequest pr cs fs cms rs rcs).commits.totalCount
      = (mapForgejoPullRequest pr cs fs cms rs rcs).commits.nodes.length := by
  simp [mapForgejoPullRequest]

/-- C10: a review comment whose current diff line field equals 0 never maps
to line = 0; the zero is treated exactly like an absent line, so the result
coincides with the mapping of the same comment with the line removed. -/
theorem c10_zero_line (c : ForgejoReviewComment) (h : c.line = some 0) :
    (mapForgejoReviewComment c).line ≠ some 0 ∧
    (mapForgejoReviewComment c).line
      = (mapForgejoReviewComment { c with line := none }).line := by
  constructor
  · simp only [mapForgejoReviewComment, jsOrNat, jsTruthyNat, h]
    cases ho : c.original_line with
    | none => simp
    | some m =>
      by_cases hm : m = 0 <;> simp [hm]
  · simp [mapForgejoReviewComment, jsOrNat, jsTruthyNat, h]

/-- Witness for C10: the comment with line 0 and original line 15 maps to
the same line as its line-free variant and not to 0. -/
theorem c10_zero_line_witness :
    (mapForgejoReviewComment sampleRCzero).line ≠ some 0 ∧
    (mapForgejoReviewComment sampleRCzero).line
      = (mapForgejoReviewComment { sampleRCzero with line := none }).line :=
  c10_zero_line sampleRCzero rfl

/-- C4 (amended): among the four primary sub-requests of a Forgejo
pull-request fetch, only a non-2xx response on the item metadata request
fails the fetch; a non-2xx response on the commit, file or comment list is
indistinguishable from an empty 2xx list, and the fetch still succeeds.
The hypotheses exclude transport-level rejections, which reject the whole
join. -/
theorem c4_primary_failure (owner repo n : String) (pr : ForgejoPullRequest)
    (commitsR : EndpointResult (List ForgejoCommit))
    (filesR : EndpointResult (List ForgejoFile))
    (commentsR : EndpointResult (List ForgejoComment))
    (reviewsR : EndpointResult (List ForgejoReview))
    (rcR : EndpointResult (List ForgejoReviewComment))
    (dn : Option String)
    (hc : commitsR.isThrown = false) (hf : filesR.isThrown = false)
    (hm : commentsR.isThrown = false) :
    (∀ st, (forgejoFetchPullRequestData owner repo n (.notOk st) commitsR
        filesR commentsR reviewsR rcR dn).1
      = Except.error ("Failed to fetch pull request: " ++ toString st)) ∧
    (∀ st, forgejoFetchPullRequestData owner repo n (.ok pr) (.notOk st)
        filesR commentsR reviewsR rcR dn
      = forgejoFetchPullRequestData owner repo n (.ok pr) (.ok [])
        filesR commentsR reviewsR rcR dn) ∧
    (∀ st, forgejoFetchPullRequestData owner repo n (.ok pr) commitsR
        (.notOk st) commentsR reviewsR rcR dn
      = forgejoFetchPullRequestData owner repo n (.ok pr) commitsR
        (.ok []) commentsR reviewsR rcR dn) ∧
    (∀ st, forgejoFetchPullRequestData owner repo n (.ok pr) commitsR
        filesR (.notOk st) reviewsR rcR dn
      = forgejoFetchPullRequestData owner repo n (.ok pr) commitsR
        filesR (.ok []) reviewsR rcR dn) ∧
    isOkE (forgejoFetchPullRequestData owner repo n (.ok pr) commitsR
        filesR commentsR reviewsR rcR dn).1 = true := by
  refine ⟨?_, ?_, ?_, ?_, ?_⟩
  · intro st
    simp [forgejoFetchPullRequestData, hc, hf, hm]
  · intro st
    simp [forgejoFetchPullRequestData, hf, hm]
  · intro st
    simp [forgejoFetchPullRequestData, hc, hm]
  · intro st
    simp [forgejoFetchPullRequestData, hc, hf]
  · simp [forgejoFetchPullRequestData, hc, hf, hm, isOkE]

/-- Witness for C4: with empty 2xx responses on the other collections, a
404 on the item metadata fails the fetch. -/
theorem c4_primary_failure_witness :
    (forgejoFetchPullRequestData "o" "r" "1" (.notOk 404) (.ok []) (.ok [])
      (.ok []) (.ok []) (.ok []) none).1
      = Except.error ("Failed to fetch pull request: " ++ toString 404) :=
  (c4_primary_failure "o" "r" "1" samplePR (.ok []) (.ok []) (.ok [])
    (.ok []) (.ok []) none rfl rfl rfl).1 404

/-- Counterexample for C4 as stated: a 500 on the commit list does not fail
the fetch; the run is identical to one whose commit list came back empty,
and it succeeds. -/
theorem c4_primary_failure_counterexample :
    forgejoFetchPullRequestData "o" "r" "1" (.ok samplePR) (.notOk 500)
      (.ok []) (.ok []) (.ok []) (.ok []) none
      = forgejoFetchPullRequestData "o" "r" "1" (.ok samplePR) (.ok [])
        (.ok []) (.ok []) (.ok []) (.ok []) none ∧
    isOkE (forgejoFetchPullRequestData "o" "r" "1" (.ok samplePR) (.notOk 500)
      (.ok []) (.ok []) (.ok []) (.ok []) none).1 = true :=
  ⟨rfl, rfl⟩

/-- C3 (amended): when the Forgejo reviews endpoint fails (non-2xx or
rejected), the pull-request fetch still succeeds and behaves exactly as a
run with no reviews and no review comments, so reviewData is null; when
the reviews endpoint succeeds and only the review-comments endpoint fails,
the fetch still succeeds but keeps the fetched reviews with empty comment
lists, so reviewData is null only when zero reviews were returned. -/
theorem c3_review_failure (owner repo n : String) (pr : ForgejoPullRequest)
    (commitsR : EndpointResult (List ForgejoCommit))
    (filesR : EndpointResult (List ForgejoFile))
    (commentsR : EndpointResult (List ForgejoComment))
    (dn : Option String)
    (hc : commitsR.isThrown = false) (hf : filesR.isThrown = false)
    (hm : commentsR.isThrown = false) :
    (∀ st (rcR : EndpointResult (List ForgejoReviewComment)),
      (forgejoFetchPullRequestData owner repo n (.ok pr) commitsR filesR
        commentsR (.notOk st) rcR dn).1
      = (forgejoFetchPullRequestData owner repo n (.ok pr) commitsR filesR
        commentsR (.ok []) (.ok []) dn).1) ∧
    (∀ rcR : EndpointResult (List ForgejoReviewComment),
      (forgejoFetchPullRequestData owner repo n (.ok pr) commitsR filesR
        commentsR .thrown rcR dn).1
      = (forgejoFetchPullRequestData owner repo n (.ok pr) commitsR filesR
        commentsR (.ok []) (.ok []) dn).1) ∧
    (Except.map (fun r => r.reviewData)
      ((forgejoFetchPullRequestData owner repo n (.ok pr) commitsR filesR
        commentsR (.ok []) (.ok []) dn).1) = Except.ok none) ∧
    (∀ (rs : List ForgejoReview) st,
      (forgejoFetchPullRequestData owner repo n (.ok pr) commitsR filesR
        commentsR (.ok rs) (.notOk st) dn).1
      = (forgejoFetchPullRequestData owner repo n (.ok pr) commitsR filesR
        commentsR (.ok rs) (.ok []) dn).1) ∧
    (∀ rs : List ForgejoReview,
      (forgejoFetchPullRequestData owner repo n (.ok pr) commitsR filesR
        commentsR (.ok rs) .thrown dn).1
      = (forgejoFetchPullRequestData owner repo n (.ok pr) commitsR filesR
        commentsR (.ok rs) (.ok []) dn).1) ∧
    (∀ rs : List ForgejoReview,
      Except.map (fun r => r.reviewData)
        ((forgejoFetchPullRequestData owner repo n (.ok pr) commitsR filesR
          commentsR (.ok rs) (.ok []) dn).1)
      = Except.ok (if rs.length > 0
          then some { nodes := rs.map (fun rv => mapForgejoReview rv []) }
          else none)) := by
  refine ⟨?_, ?_, ?_, ?_, ?_, ?_⟩
  · intro st rcR
    cases rcR <;>
      simp [forgejoFetchPullRequestData, hc, hf, hm,
        mapForgejoPullRequest_nil_reviews]
  · intro rcR
    simp [forgejoFetchPullRequestData, hc, hf, hm]
  · simp [forgejoFetchPullRequestData, hc, hf, hm, mapForgejoPullRequest,
      buildReviewCommentsMap, Except.map]
  · intro rs st
    simp [forgejoFetchPullRequestData, hc, hf, hm]
  · intro rs
    simp [forgejoFetchPullRequestData, hc, hf, hm]
  · intro rs
    simp [forgejoFetchPullRequestData, hc, hf, hm, mapForgejoPullRequest,
      buildReviewCommentsMap, mapLookup, Except.map]

/-- Witness for C3: a failing reviews endpoint yields a successful fetch
with reviewData null, identical to a run that saw no reviews at all. -/
theorem c3_review_failure_witness :
    Except.map (fun r => r.reviewData)
      ((forgejoFetchPullRequestData "o" "r" "1" (.ok samplePR) (.ok [])
        (.ok []) (.ok []) (.ok []) (.ok []) none).1) = Except.ok none ∧
    (forgejoFetchPullRequestData "o" "r" "1" (.ok samplePR) (.ok []) (.ok [])
      (.ok []) (.notOk 404) (.ok []) none).1
      = (forgejoFetchPullRequestData "o" "r" "1" (.ok samplePR) (.ok [])
        (.ok []) (.ok []) (.ok []) (.ok []) none).1 := by
  have h := c3_review_failure "o" "r" "1" samplePR (.ok []) (.ok []) (.ok [])
    none rfl rfl rfl
  exact ⟨h.2.2.1, h.1 404 (.ok [])⟩

/-- Counterexample for C3 as stated: when only the review-comments endpoint
fails (404) and the reviews endpoint returned one review, the fetch
succeeds but reviewData is not null. -/
theorem c3_review_failure_counterexample :
    Except.map (fun r => r.reviewData.isSome)
      ((forgejoFetchPullRequestData "o" "r" "1" (.ok samplePR) (.ok [])
        (.ok []) (.ok []) (.ok [sampleReview 5]) (.notOk 404) none).1)
      = Except.ok true :=
  rfl

theorem forgejoFetchPullRequestData_requests_ne_nil (owner repo n : String)
    (prR : EndpointResult ForgejoPullRequest)
    (commitsR : EndpointResult (List ForgejoCommit))
    (filesR : EndpointResult (List ForgejoFile))
    (commentsR : EndpointResult (List ForgejoComment))
    (reviewsR : EndpointResult (List ForgejoReview))
    (rcR : EndpointResult (List ForgejoReviewComment))
    (dn : Option String) :
    (forgejoFetchPullRequestData owner repo n prR commitsR filesR commentsR
      reviewsR rcR dn).2 ≠ [] := by
  unfold forgejoFetchPullRequestData
  split
  · simp
  · cases prR <;> simp

theorem forgejoFetchIssueData_requests_ne_nil (owner repo n : String)
    (issueR : EndpointResult ForgejoIssue)
    (commentsR : EndpointResult (List ForgejoComment))
    (dn : Option String) :
    (forgejoFetchIssueData owner repo n issueR commentsR dn).2 ≠ [] := by
  unfold forgejoFetchIssueData
  split
  · simp
  · cases issueR <;> simp

theorem githubFetchData_requests_ne_nil (repository prNumber : String)
    (isPR : Bool) (prQ : QueryResult (Option GitHubPullRequest))
    (issueQ : QueryResult (Option GitHubIssue))
    (hashF : String → Option String) (imap : List (String × String))
    (dn : Option String)
    (h : (((splitSlash repository).getD 0 "").isEmpty
        || ((splitSlash repository).getD 1 "").isEmpty) = false) :
    (githubFetchData repository prNumber isPR prQ issueQ hashF imap dn).2 ≠ [] := by
  unfold githubFetchData
  simp only [h]
  cases isPR
  · cases issueQ with
    | failed => simp
    | ok a => cases a <;> simp
  · cases prQ with
    | failed => simp
    | ok a => cases a <;> simp

/-- C7 (amended): on the Forgejo adapter a missing pull request or issue
fails the fetch with an error carrying the backend status (for example
Failed to fetch pull request: 404), which the outer handler rethrows
unchanged; on the GitHub adapter the not-found error thrown inside the try
block is replaced by the catch with the generic Failed to fetch PR data or
Failed to fetch issue data message, the same error produced by any other
query failure, so there the caller cannot distinguish NotFound from other
upstream errors. -/
theorem c7_not_found (owner repo n repository prNumber : String) (st : Nat)
    (commitsR : EndpointResult (List ForgejoCommit))
    (filesR : EndpointResult (List ForgejoFile))
    (commentsR : EndpointResult (List ForgejoComment))
    (reviewsR : EndpointResult (List ForgejoReview))
    (rcR : EndpointResult (List ForgejoReviewComment))
    (issueCommentsR : EndpointResult (List ForgejoComment))
    (dn : Option String)
    (prQ : QueryResult (Option GitHubPullRequest))
    (issueQ : QueryResult (Option GitHubIssue))
    (hashF : String → Option String) (imap : List (String × String))
    (gdn : Option String)
    (hc : commitsR.isThrown = false) (hf : filesR.isThrown = false)
    (hm : commentsR.isThrown = false)
    (hic : issueCommentsR.isThrown = false)
    (hrepo : (((splitSlash repository).getD 0 "").isEmpty
        || ((splitSlash repository).getD 1 "").isEmpty) = false) :
    ((forgejoFetchPullRequestData owner repo n (.notOk st) commitsR filesR
        commentsR reviewsR rcR dn).1
      = Except.error ("Failed to fetch pull request: " ++ toString st)) ∧
    ((forgejoFetchIssueData owner repo n (.notOk st) issueCommentsR dn).1
      = Except.error ("Failed to fetch issue: " ++ toString st)) ∧
    ((githubFetchData repository prNumber true (.ok none) issueQ hashF imap
        gdn).1 = Except.error "Failed to fetch PR data") ∧
    ((githubFetchData repository prNumber true .failed issueQ hashF imap
        gdn).1 = Except.error "Failed to fetch PR data") ∧
    ((githubFetchData repository prNumber false prQ (.ok none) hashF imap
        gdn).1 = Except.error "Failed to fetch issue data") ∧
    ((githubFetchData repository prNumber false prQ .failed hashF imap
        gdn).1 = Except.error "Failed to fetch issue data") := by
  refine ⟨?_, ?_, ?_, ?_, ?_, ?_⟩
  · simp [forgejoFetchPullRequestData, hc, hf, hm]
  · simp [forgejoFetchIssueData, hic]
  · simp only [githubFetchData]
    split
    · rename_i hcond
      rw [hrepo] at hcond
      simp at hcond
    · rfl
  · simp only [githubFetchData]
    split
    · rename_i hcond
      rw [hrepo] at hcond
      simp at hcond
    · rfl
  · simp only [githubFetchData]
    split
    · rename_i hcond
      rw [hrepo] at hcond
      simp at hcond
    · rfl
  · simp only [githubFetchData]
    split
    · rename_i hcond
      rw [hrepo] at hcond
      simp at hcond
    · rfl

/-- Witness for C7: a 404 on the Forgejo pull-request metadata surfaces as
an error carrying the status, while on GitHub a missing pull request yields
the generic fetch error. -/
theorem c7_not_found_witness :
    (forgejoFetchPullRequestData "o" "r" "1" (.notOk 404) (.ok []) (.ok [])
      (.ok []) (.ok []) (.ok []) none).1
      = Except.error ("Failed to fetch pull request: " ++ toString 404) ∧
    (githubFetchData "o/r" "1" true (.ok none) (.ok none) (fun _ => none) []
      none).1 = Except.error "Failed to fetch PR data" := by
  have h := c7_not_found "o" "r" "1" "o/r" "1" 404 (.ok []) (.ok []) (.ok [])
    (.ok []) (.ok []) (.ok []) none (.ok none) (.ok none) (fun _ => none) []
    none rfl rfl rfl rfl (by decide)
  exact ⟨h.1, h.2.2.1⟩

/-- Counterexample for C7 as stated: on the GitHub adapter the fetch of a
missing pull request (the query resolves with a null pull request) and a
failed query produce the identical generic error, so the not-found case is
not surfaced as a distinguishable NotFound error. -/
theorem c7_not_found_counterexample :
    (githubFetchData "o/r" "1" true (.ok none) .failed (fun _ => none) []
      none).1 = Except.error "Failed to fetch PR data" ∧
    (githubFetchData "o/r" "1" true .failed .failed (fun _ => none) []
      none).1 = Except.error "Failed to fetch PR data" :=
  ⟨rfl, rfl⟩

/-- C2 (amended): the Forgejo adapter rejects, before issuing any request,
exactly those repository strings whose slash split does not have exactly
two parts, accepting strings with an empty owner or repo segment; the
GitHub adapter rejects, before issuing any request, exactly those strings
whose first or second split segment is empty, accepting strings with more
than one slash; a string with exactly one slash separating two non-empty
segments is accepted by both and the request is issued. -/
theorem c2_repo_validation (s prNumber num cid body1 body2 body3 body4 : String)
    (isPR : Bool)
    (prR : EndpointResult ForgejoPullRequest)
    (commitsR : EndpointResult (List ForgejoCommit))
    (filesR : EndpointResult (List ForgejoFile))
    (commentsR : EndpointResult (List ForgejoComment))
    (reviewsR : EndpointResult (List ForgejoReview))
    (rcR : EndpointResult (List ForgejoReviewComment))
    (issueR : EndpointResult ForgejoIssue)
    (issueCommentsR : EndpointResult (List ForgejoComment))
    (dn : Option String) (wresp wresp2 : WriteResp)
    (prQ : QueryResult (Option GitHubPullRequest))
    (issueQ : QueryResult (Option GitHubIssue))
    (hashF : String → Option String) (imap : List (String × String))
    (gdn : Option String) (gresp gresp2 : Except String Unit) :
    ((splitSlash s).length ≠ 2 →
      forgejoFetchData s prNumber isPR prR commitsR filesR commentsR reviewsR
          rcR issueR issueCommentsR dn
        = (Except.error ("Invalid repository format: " ++ s), []) ∧
      forgejoCreateComment s num body1 wresp
        = (Except.error ("Invalid repository format: " ++ s), []) ∧
      forgejoUpdateComment s cid body2 wresp2
        = (Except.error ("Invalid repository format: " ++ s), [])) ∧
    ((splitSlash s).length = 2 →
      (forgejoFetchData s prNumber isPR prR commitsR filesR commentsR reviewsR
          rcR issueR issueCommentsR dn).2 ≠ [] ∧
      (forgejoCreateComment s num body1 wresp).2 ≠ [] ∧
      (forgejoUpdateComment s cid body2 wresp2).2 ≠ []) ∧
    ((((splitSlash s).getD 0 "").isEmpty
        || ((splitSlash s).getD 1 "").isEmpty) = true →
      githubFetchData s prNumber isPR prQ issueQ hashF imap gdn
        = (Except.error "Invalid repository format. Expected owner/repo.", []) ∧
      githubCreateComment s num body3 gresp
        = (Except.error "Invalid repository format. Expected owner/repo.", []) ∧
      githubUpdateComment s cid body4 gresp2
        = (Except.error "Invalid repository format. Expected owner/repo.", [])) ∧
    ((((splitSlash s).getD 0 "").isEmpty
        || ((splitSlash s).getD 1 "").isEmpty) = false →
      (githubFetchData s prNumber isPR prQ issueQ hashF imap gdn).2 ≠ [] ∧
      (githubCreateComment s num body3 gresp).2 ≠ [] ∧
      (githubUpdateComment s cid body4 gresp2).2 ≠ []) := by
  refine ⟨?_, ?_, ?_, ?_⟩
  · intro h
    refine ⟨?_, ?_, ?_⟩ <;>
      simp [forgejoFetchData, forgejoCreateComment, forgejoUpdateComment, h]
  · intro h
    refine ⟨?_, ?_, ?_⟩
    · simp only [forgejoFetchData, h]
      cases isPR <;>
        simp [forgejoFetchPullRequestData_requests_ne_nil,
          forgejoFetchIssueData_requests_ne_nil]
    · simp only [forgejoCreateComment, h]
      cases wresp <;> simp
    · simp only [forgejoUpdateComment, h]
      cases wresp2 <;> simp
  · intro h
    refine ⟨?_, ?_, ?_⟩
    · simp only [githubFetchData]
      split
      · rfl
      · rename_i hcond
        exact absurd h hcond
    · simp only [githubCreateComment]
      split
      · rfl
      · rename_i hcond
        exact absurd h hcond
    · simp only [githubUpdateComment]
      split
      · rfl
      · rename_i hcond
        exact absurd h hcond
  · intro h
    refine ⟨githubFetchData_requests_ne_nil s prNumber isPR prQ issueQ hashF
        imap gdn h, ?_, ?_⟩
    · simp only [githubCreateComment]
      split
      · rename_i hcond
        rw [h] at hcond
        simp at hcond
      · simp
    · simp only [githubUpdateComment]
      split
      · rename_i hcond
        rw [h] at hcond
        simp at hcond
      · simp

/-- Witness for C2: the string a/b/c is rejected by the Forgejo adapter
before any request, while the GitHub adapter accepts it and issues its
request. -/
theorem c2_repo_validation_witness :
    forgejoCreateComment "a/b/c" "1" "hello" WriteResp.ok
      = (Except.error ("Invalid repository format: " ++ "a/b/c"), []) ∧
    (githubCreateComment "a/b/c" "1" "hello" (Except.ok ())).2 ≠ [] := by
  have h := c2_repo_validation "a/b/c" "1" "1" "9" "hello" "hello" "hello"
    "hello" true .thrown .thrown .thrown .thrown .thrown .thrown .thrown
    .thrown none .ok .ok .failed .failed (fun _ => none) [] none
    (Except.ok ()) (Except.ok ())
  exact ⟨(h.1 (by decide)).2.1, (h.2.2.2 (by decide)).2.1⟩

/-- Counterexample for C2 as stated: the string a/ does not split into two
non-empty segments, yet the Forgejo adapter accepts it: createComment
succeeds and issues its network request instead of rejecting with the
invalid-format error. -/
theorem c2_repo_validation_counterexample :
    (splitSlash "a/").length = 2 ∧
    ((splitSlash "a/").getD 1 "").isEmpty = true ∧
    forgejoCreateComment "a/" "1" "hello" WriteResp.ok
      = (Except.ok (), ["/repos/a//issues/1/comments"]) :=
  ⟨rfl, rfl, rfl⟩

end ForgeSpec
